import Mathlib

/-!
Shallow embedding of the KYUBIC control-panel core (src/App.jsx): the
static device registry, the status monitor (`useDeviceMonitor`), the
target selector and confirmation gate of the `App` component, and the
diagnostic report model. JS objects keyed by IP strings are embedded as
insertion-ordered association lists, on which `JSON.stringify` equality
coincides with list equality; React state-cell reference identity is
tracked by an explicit `refId` counter that is bumped exactly when a
state setter commits a new object.
-/

namespace Kyubic

/-- One entry of `MASTER_CONFIG`: either an operable computer
(`type: "computer"`, carrying `sshName` and `allowRos`) or a
monitor-only device. The JS `type` string tag is the constructor. -/
inductive ConfigItem where
  | computer (sshName uiName ip : String) (allowRos : Bool)
  | device (uiName ip : String)
deriving DecidableEq

/-- The `uiName` field, present on both kinds of entry. -/
def ConfigItem.uiName : ConfigItem → String
  | .computer _ u _ _ => u
  | .device u _ => u

/-- The `ip` field, present on both kinds of entry. -/
def ConfigItem.ip : ConfigItem → String
  | .computer _ _ i _ => i
  | .device _ i => i

/-- The `MASTER_CONFIG` constant of App.jsx, verbatim. -/
def MASTER_CONFIG : List ConfigItem :=
  [.computer "localhost" "localhost" "127.0.0.1" true,
   .computer "kyubic_main" "Main PC" "192.168.50.101" true,
   .computer "kyubic_jetson" "Jetson" "192.168.9.110" false,
   .computer "kyubic_rpi5" "RPi 5" "192.168.9.120" false,
   .device "Sensor (ESP32)" "192.168.9.5",
   .device "DVL" "192.168.9.10",
   .device "GNSS" "192.168.9.20",
   .device "Main KVM" "192.168.9.105",
   .device "Jetson KVM" "192.168.9.115"]

/-- An element of `COMPUTERS`: `name` is the SSH hostname, `displayName`
the tab label, `ip` the unique key. -/
structure Computer where
  name : String
  displayName : String
  ip : String
  allowRos : Bool
deriving DecidableEq

/-- The body of `MASTER_CONFIG.filter(type === "computer").map(...)`:
the map reads the computer-only fields, so the filter-then-map is one
`filterMap` on the constructor. -/
def toComputer : ConfigItem → Option Computer
  | .computer s u i a => some ⟨s, u, i, a⟩
  | .device _ _ => none

/-- The `COMPUTERS` derived constant (controllable targets). -/
def COMPUTERS : List Computer := MASTER_CONFIG.filterMap toComputer

/-- An element of `ALL_DEVICES`: monitorable endpoint, UI name plus IP. -/
structure Device where
  name : String
  ip : String
deriving DecidableEq

/-- The `ALL_DEVICES` derived constant. -/
def ALL_DEVICES : List Device :=
  MASTER_CONFIG.map (fun item => ⟨item.uiName, item.ip⟩)

/-- A JS object from IP strings to booleans, as an insertion-ordered
association list. `JSON.stringify` equality on two such objects is
exactly equality of these lists (keys serialize in insertion order,
boolean values serialize canonically). -/
abbrev StatusMap := List (String × Bool)

/-- JS property read `m[k]`: `none` models `undefined`. -/
def jsLookup (m : StatusMap) (k : String) : Option Bool :=
  (m.find? (fun p => p.1 == k)).map (fun p => p.2)

/-- JS `!!m[k]`: `undefined` coerces to `false`. -/
def truthy (m : StatusMap) (k : String) : Bool :=
  (jsLookup m k).getD false

/-- The object literal `{ ...result, "127.0.0.1": true }`: the keys of
`result` in order, with the loopback key updated in place when already
present and appended at the end otherwise. -/
def mergeLoopback (result : StatusMap) : StatusMap :=
  if result.any (fun p => p.1 == "127.0.0.1") then
    result.map (fun p => if p.1 == "127.0.0.1" then (p.1, true) else p)
  else
    result ++ [("127.0.0.1", true)]

/-- The `targets` list handed to the one batched
`check_batch_connections` call: every non-loopback IP. -/
def targets (devices : List Device) : List String :=
  (devices.filter (fun d => d.ip != "127.0.0.1")).map (fun d => d.ip)

/-- The `deviceStatus` React state cell of `useDeviceMonitor`; `refId`
models object reference identity: the functional updater
`setDeviceStatus(prev => ...)` keeps the reference (same `refId`) when
it returns `prev`. -/
structure MonitorState where
  statusMap : StatusMap
  refId : Nat
deriving DecidableEq

/-- One tick of `updateStatuses`, with `probe` the outcome of the single
batched backend call. On a thrown error only `console.error` runs. On
success the merged map replaces the stored one unless its
`JSON.stringify` image equals the stored one's, in which case the
updater returns `prev` and the reference is kept. -/
def updateStatuses (s : MonitorState) (probe : Except String StatusMap) :
    MonitorState :=
  match probe with
  | .error _ => s
  | .ok result =>
      let nextStatus := mergeLoopback result
      if s.statusMap = nextStatus then s
      else { statusMap := nextStatus, refId := s.refId + 1 }

/-- One entry of a diagnostic report's `summary`. The JS `status` field
is a plain string, `"PASS"` or `"FAIL"` by convention. -/
structure CheckItem where
  name : String
  description : String
  status : String
  details : Option String
deriving DecidableEq

/-- The report returned by `run_system_check`. -/
structure DiagnosticResult where
  summary : List CheckItem
  detailed : String
deriving DecidableEq

/-- `result?.summary.filter(i => i.status === "FAIL") || []`. -/
def failsOf (result : Option DiagnosticResult) : List CheckItem :=
  match result with
  | none => []
  | some r => r.summary.filter (fun i => i.status == "FAIL")

/-- `result?.summary.filter(i => i.status === "PASS") || []`. -/
def passesOf (result : Option DiagnosticResult) : List CheckItem :=
  match result with
  | none => []
  | some r => r.summary.filter (fun i => i.status == "PASS")

/-- The `App` component's state cells driving the control logic. -/
structure AppState where
  activeTab : Nat
  shutdownTarget : Option Computer
  checkResult : Option DiagnosticResult
  isChecking : Bool
deriving DecidableEq

/-- The raw `setActiveTab` state setter: no bounds validation of any
kind. -/
def setActiveTab (i : Nat) (s : AppState) : AppState :=
  { s with activeTab := i }

/-- `COMPUTERS[activeTab]` (`none` models `undefined` out of range). -/
def currentRobot (s : AppState) : Option Computer := COMPUTERS[s.activeTab]?

/-- `setShutdownTarget(currentRobot)` from the shutdown button: arms the
gate with the robot current at click time. -/
def requestShutdown (t : Computer) (s : AppState) : AppState :=
  { s with shutdownTarget := some t }

/-- `setShutdownTarget(null)` from Cancel. -/
def cancelShutdown (s : AppState) : AppState :=
  { s with shutdownTarget := none }

/-- `executeShutdown`, with `outcome` the result of the awaited
`exec_shutdown_command` invoke. Returns the next state and the hostname
dispatched (`none` when the gate was idle and no call was made). When
the invoke throws, the `catch` only alerts; the `setShutdownTarget(null)`
placed after the `await` inside the `try` is skipped. -/
def executeShutdown (s : AppState) (outcome : Except String Unit) :
    AppState × Option String :=
  match s.shutdownTarget with
  | none => (s, none)
  | some t =>
      match outcome with
      | .ok _ => ({ s with shutdownTarget := none }, some t.name)
      | .error _ => (s, some t.name)

/-- `handleSystemCheck`, with `outcome` the result of the awaited
`run_system_check` invoke. Returns the state while the call is in
flight (`setIsChecking(true); setCheckResult(null)`), the state after
the try/catch/finally, and the hostname string passed to the invoke. -/
def handleSystemCheck (s : AppState) (outcome : Except String DiagnosticResult) :
    AppState × AppState × String :=
  let running : AppState := { s with isChecking := true, checkResult := none }
  let final : AppState :=
    match outcome with
    | .ok report => { running with checkResult := some report, isChecking := false }
    | .error _ => { running with isChecking := false }
  (running, final, "kyubic_main")

/-- `COMPUTERS.find(r => r.name === "kyubic_main")`. -/
def mainRobot : Option Computer :=
  COMPUTERS.find? (fun r => r.name == "kyubic_main")

/-- `!!deviceStatus[mainRobot.ip]`; the `find` above succeeds on the
static registry, so the `none` branch is unreachable. -/
def isMainOnline (statusMap : StatusMap) : Bool :=
  match mainRobot with
  | some r => truthy statusMap r.ip
  | none => false

/-- The System Check button descriptor. -/
structure BtnProps where
  icon : String
  text : String
  disabled : Bool
deriving DecidableEq

/-- The `checkBtnProps` if-chain: default RUN CHECK, overridden by
CHECKING while a run is in flight, else OFFLINE when kyubic_main is not
online. -/
def checkBtnProps (checking mainOnline : Bool) : BtnProps :=
  if checking then ⟨"⏳", "CHECKING...", true⟩
  else if !mainOnline then ⟨"🚫", "OFFLINE", true⟩
  else ⟨"🛡️", "RUN CHECK", false⟩

/-- The indices a rendered tab button can pass to `setActiveTab`: the
tab row maps `(comp, idx)` over `COMPUTERS` and renders a button with
`onClick={() => setActiveTab(idx)}` only when
`comp.ip !== "127.0.0.1" || isLinux`. -/
def tabClickIndices (isLinux : Bool) : List Nat :=
  ((COMPUTERS.enum).filter (fun p => p.2.ip != "127.0.0.1" || isLinux)).map
    (fun p => p.1)

/-- The first `COMPUTERS` entry, used as a concrete armed target. -/
def localhostComputer : Computer := ⟨"localhost", "localhost", "127.0.0.1", true⟩

/-- A concrete idle app state. -/
def idleState : AppState := ⟨0, none, none, false⟩

/-- A concrete state whose confirmation gate is armed. -/
def armedState : AppState := ⟨0, some localhostComputer, none, false⟩

/-- A concrete diagnostic result. -/
def sampleResult : DiagnosticResult := ⟨[], "log"⟩

/-- A concrete state holding a previously stored diagnostic result. -/
def stateWithResult : AppState := ⟨0, none, some sampleResult, false⟩

/-- A concrete passing check item. -/
def passItem : CheckItem := ⟨"net", "network reachable", "PASS", none⟩

/-- A concrete failing check item. -/
def failItem : CheckItem := ⟨"ros", "ros nodes alive", "FAIL", some "x"⟩

/-- A concrete report mixing passing and failing items. -/
def sampleReport : DiagnosticResult := ⟨[passItem, failItem, passItem], ""⟩

/-- C1 counterexample: with the gate armed on a concrete target, a failing
shutdown dispatch leaves the gate Armed, not Idle — the claim that
`confirm()` always returns the gate to Idle is false at this input. -/
theorem C1_counterexample :
    armedState.shutdownTarget = some localhostComputer ∧
    (executeShutdown armedState (.error "dispatch failed")).1.shutdownTarget =
      some localhostComputer := by
  decide

/-- C1 (amended): confirming an armed gate dispatches the shutdown and, on
success, returns the gate to Idle; on a failed dispatch the error is only
surfaced and the gate stays Armed with the same target. -/
theorem C1_confirm_gate (s : AppState) (t : Computer)
    (h : s.shutdownTarget = some t) :
    (executeShutdown s (.ok ())).1.shutdownTarget = none ∧
    ∀ e : String, (executeShutdown s (.error e)).1.shutdownTarget = some t := by
  refine ⟨?_, fun e => ?_⟩ <;> simp [executeShutdown, h]

/-- Witness for C1: the amended theorem applied to the concrete armed
state. -/
theorem C1_confirm_gate_witness :
    armedState.shutdownTarget = some localhostComputer ∧
    (executeShutdown armedState (.ok ())).1.shutdownTarget = none :=
  ⟨rfl, (C1_confirm_gate armedState localhostComputer rfl).1⟩

/-- C2: when the batched probe call itself errors, the tick leaves the
monitor state — the stored StatusMap and its reference — unchanged; the
failure is only logged. -/
theorem C2_probe_error_keeps_state (s : MonitorState) (e : String) :
    updateStatuses s (.error e) = s := rfl

/-- C3: when a successful poll computes a map stringify-equal (for these
ordered string-to-boolean objects, list-equal) to the stored one, the
updater returns the previous object and the stored reference does not
change. -/
theorem C3_unchanged_map_keeps_reference (s : MonitorState) (result : StatusMap)
    (h : mergeLoopback result = s.statusMap) :
    updateStatuses s (.ok result) = s := by
  simp [updateStatuses, h]

/-- Witness for C3: a concrete stored map reproduced by the next poll. -/
theorem C3_unchanged_map_keeps_reference_witness :
    mergeLoopback [("192.168.9.5", true)] =
      (MonitorState.mk [("192.168.9.5", true), ("127.0.0.1", true)] 0).statusMap ∧
    updateStatuses (MonitorState.mk [("192.168.9.5", true), ("127.0.0.1", true)] 0)
        (.ok [("192.168.9.5", true)]) =
      MonitorState.mk [("192.168.9.5", true), ("127.0.0.1", true)] 0 :=
  ⟨by decide, C3_unchanged_map_keeps_reference _ _ (by decide)⟩

/-- Looking up the loopback key after the in-place update branch of the
merge yields true whenever the key occurs in the list. -/
theorem jsLookup_map_loopback (l : StatusMap)
    (hl : l.any (fun p => p.1 == "127.0.0.1") = true) :
    jsLookup (l.map (fun p => if p.1 == "127.0.0.1" then (p.1, true) else p))
      "127.0.0.1" = some true := by
  induction l with
  | nil => simp at hl
  | cons p rest ih =>
      rw [List.map_cons]
      cases hpb : (p.1 == "127.0.0.1") with
      | true => simp [jsLookup, hpb]
      | false =>
          have hrest : rest.any (fun q => q.1 == "127.0.0.1") = true := by
            simpa [hpb] using hl
          rw [if_neg (by simp)]
          unfold jsLookup
          rw [List.find?_cons_of_neg
            (p := fun q : String × Bool => q.1 == "127.0.0.1") _ (by simp [hpb])]
          exact ih hrest

/-- Looking up the loopback key after the append branch of the merge
yields true whenever the key does not occur in the list. -/
theorem jsLookup_append_loopback (l : StatusMap)
    (hl : l.any (fun p => p.1 == "127.0.0.1") = false) :
    jsLookup (l ++ [("127.0.0.1", true)]) "127.0.0.1" = some true := by
  induction l with
  | nil => simp [jsLookup]
  | cons p rest ih =>
      have hb : (p.1 == "127.0.0.1") = false := by
        by_contra hc
        simp only [Bool.not_eq_false] at hc
        simp [hc] at hl
      have hrest : rest.any (fun q => q.1 == "127.0.0.1") = false := by
        simpa [hb] using hl
      rw [List.cons_append]
      unfold jsLookup
      rw [List.find?_cons_of_neg
        (p := fun q : String × Bool => q.1 == "127.0.0.1") _ (by simp [hb])]
      exact ih hrest

/-- The merged map always reads true at the loopback key. -/
theorem jsLookup_mergeLoopback (result : StatusMap) :
    jsLookup (mergeLoopback result) "127.0.0.1" = some true := by
  unfold mergeLoopback
  split
  · exact jsLookup_map_loopback result (by assumption)
  · refine jsLookup_append_loopback result ?_
    rename_i hc
    exact Bool.not_eq_true _ ▸ Bool.of_not_eq_true hc

/-- The loopback IP is never in the batched probe's target list. -/
theorem loopback_not_in_targets (devices : List Device) :
    "127.0.0.1" ∉ targets devices := by
  intro h
  simp only [targets, List.mem_map, List.mem_filter] at h
  obtain ⟨d, ⟨_, hne⟩, hip⟩ := h
  rw [hip] at hne
  simp at hne

/-- C4: loopback is excluded from the batched query's target list, and
after every successful poll, whatever the probe result, the stored
StatusMap reads true at 127.0.0.1. -/
theorem C4_loopback_forced_true (devices : List Device) (s : MonitorState)
    (result : StatusMap) :
    "127.0.0.1" ∉ targets devices ∧
    jsLookup (updateStatuses s (.ok result)).statusMap "127.0.0.1" = some true := by
  refine ⟨loopback_not_in_targets devices, ?_⟩
  show jsLookup (if s.statusMap = mergeLoopback result then s
      else { statusMap := mergeLoopback result, refId := s.refId + 1 }).statusMap
      "127.0.0.1" = some true
  split
  · next h => rw [h]; exact jsLookup_mergeLoopback result
  · exact jsLookup_mergeLoopback result

/-- C5 counterexample: with a diagnostic result already stored, a failing
run leaves `checkResult` cleared to null rather than restoring the prior
result — the model is not left in its prior state on failure. -/
theorem C5_counterexample :
    stateWithResult.checkResult = some sampleResult ∧
    (handleSystemCheck stateWithResult (.error "ssh failed")).2.1.checkResult =
      none := by
  decide

/-- C5 (amended): a diagnostic run first clears the stored result and sets
the running flag, during which the trigger is disabled; on success the new
result is stored; on failure the result stays cleared (the prior result was
already discarded at the start of the run) and an error is surfaced; the
running flag is cleared at the end either way. -/
theorem C5_run_lifecycle (s : AppState) (outcome : Except String DiagnosticResult)
    (b : Bool) :
    (handleSystemCheck s outcome).1.checkResult = none ∧
    (handleSystemCheck s outcome).1.isChecking = true ∧
    (checkBtnProps (handleSystemCheck s outcome).1.isChecking b).disabled = true ∧
    (handleSystemCheck s outcome).2.1.isChecking = false ∧
    (∀ r, outcome = .ok r → (handleSystemCheck s outcome).2.1.checkResult = some r) ∧
    (∀ e, outcome = .error e →
      (handleSystemCheck s outcome).2.1.checkResult = none) := by
  cases outcome <;> simp [handleSystemCheck, checkBtnProps]

/-- Witness for C5: the amended lifecycle at a successful concrete run. -/
theorem C5_run_lifecycle_witness :
    (handleSystemCheck idleState (.ok sampleResult)).2.1.checkResult =
      some sampleResult :=
  (C5_run_lifecycle idleState (.ok sampleResult) false).2.2.2.2.1 sampleResult rfl

/-- For a list whose items all carry status PASS or FAIL, the two status
filters partition it. -/
theorem filter_pass_fail_length (l : List CheckItem)
    (h : ∀ i ∈ l, i.status = "PASS" ∨ i.status = "FAIL") :
    (l.filter (fun i => i.status == "PASS")).length +
      (l.filter (fun i => i.status == "FAIL")).length = l.length := by
  induction l with
  | nil => simp
  | cons a rest ih =>
      have ha := h a (List.mem_cons_self a rest)
      have hrest := ih fun i hi => h i (List.mem_cons_of_mem a hi)
      have hpp : ("PASS" == "PASS") = true := by decide
      have hpf : ("PASS" == "FAIL") = false := by decide
      have hff : ("FAIL" == "FAIL") = true := by decide
      have hfp : ("FAIL" == "PASS") = false := by decide
      rcases ha with ha | ha <;>
        simp [List.filter_cons, ha, hpp, hpf, hff, hfp] <;> omega

/-- C6: for a result whose summary items all have status PASS or FAIL, the
derived pass/fail partition covers the summary exactly, and each side is a
sublist of the summary, hence preserves the original relative order. -/
theorem C6_partition (r : DiagnosticResult)
    (h : ∀ i ∈ r.summary, i.status = "PASS" ∨ i.status = "FAIL") :
    (passesOf (some r)).length + (failsOf (some r)).length = r.summary.length ∧
    List.Sublist (passesOf (some r)) r.summary ∧
    List.Sublist (failsOf (some r)) r.summary :=
  ⟨filter_pass_fail_length r.summary h,
   List.filter_sublist r.summary, List.filter_sublist r.summary⟩

/-- Witness for C6: the partition of a concrete three-item report. -/
theorem C6_partition_witness :
    (∀ i ∈ sampleReport.summary, i.status = "PASS" ∨ i.status = "FAIL") ∧
    (passesOf (some sampleReport)).length + (failsOf (some sampleReport)).length =
      sampleReport.summary.length :=
  ⟨by decide, (C6_partition sampleReport (by decide)).1⟩

/-- C7: arming the gate with A and then with B, with no cancel or confirm
between, leaves it Armed with exactly B: the single optional cell holds at
most one pending request and the second arm replaces the first. -/
theorem C7_last_request_wins (s : AppState) (A B : Computer) :
    (requestShutdown B (requestShutdown A s)).shutdownTarget = some B := rfl

/-- C8: confirming dispatches `exec_shutdown_command` with the hostname of
the target captured at arm time, even after the active tab has been
switched to any other index, and for either dispatch outcome. -/
theorem C8_dispatch_uses_armed_target (s : AppState) (t : Computer) (j : Nat)
    (outcome : Except String Unit) (h : s.shutdownTarget = some t) :
    (executeShutdown (setActiveTab j s) outcome).2 = some t.name := by
  cases outcome <;> simp [executeShutdown, setActiveTab, h]

/-- Witness for C8: the armed localhost target is dispatched after the
active tab moves to index 2. -/
theorem C8_dispatch_uses_armed_target_witness :
    armedState.shutdownTarget = some localhostComputer ∧
    (executeShutdown (setActiveTab 2 armedState) (.ok ())).2 = some "localhost" :=
  ⟨rfl, C8_dispatch_uses_armed_target armedState localhostComputer 2 (.ok ()) rfl⟩

/-- C9 counterexample: the setter performs no bounds validation — index 99
is out of range for the four controllable targets, yet the request is not a
no-op: the active index changes to 99. -/
theorem C9_counterexample :
    COMPUTERS.length = 4 ∧ (setActiveTab 99 idleState).activeTab = 99 ∧
    setActiveTab 99 idleState ≠ idleState := by
  decide

/-- C9 (amended): `setActiveTab` itself has no bounds check, but every
index a rendered tab button can pass is in range for the
controllable-target list, so view-driven tab switches always leave the
active index valid. -/
theorem C9_view_indices_in_range (isLinux : Bool) (i : Nat)
    (h : i ∈ tabClickIndices isLinux) (s : AppState) :
    i < COMPUTERS.length ∧ (setActiveTab i s).activeTab < COMPUTERS.length := by
  have hf : ∀ j ∈ tabClickIndices false, j < COMPUTERS.length := by decide
  have ht : ∀ j ∈ tabClickIndices true, j < COMPUTERS.length := by decide
  have hi : i < COMPUTERS.length := by
    cases isLinux with
    | false => exact hf i h
    | true => exact ht i h
  exact ⟨hi, hi⟩

/-- Witness for C9: tab index 1 is offered on non-Linux hosts and is in
range. -/
theorem C9_view_indices_in_range_witness :
    1 ∈ tabClickIndices false ∧ 1 < COMPUTERS.length :=
  ⟨by decide, (C9_view_indices_in_range false 1 (by decide) idleState).1⟩

/-- C10: every diagnostic run is dispatched with the fixed hostname
kyubic_main, unchanged by any switch of the active tab; the trigger's
state likewise ignores the active tab and is gated on the status-map entry
of the kyubic_main device (IP 192.168.50.101), being disabled whenever
that device is not online. -/
theorem C10_diagnostics_target_fixed (s : AppState) (j : Nat)
    (outcome : Except String DiagnosticResult) (m : StatusMap) :
    (handleSystemCheck s outcome).2.2 = "kyubic_main" ∧
    (handleSystemCheck (setActiveTab j s) outcome).2.2 =
      (handleSystemCheck s outcome).2.2 ∧
    mainRobot = some ⟨"kyubic_main", "Main PC", "192.168.50.101", true⟩ ∧
    isMainOnline m = truthy m "192.168.50.101" ∧
    checkBtnProps (setActiveTab j s).isChecking (isMainOnline m) =
      checkBtnProps s.isChecking (isMainOnline m) ∧
    (checkBtnProps s.isChecking false).disabled = true := by
  refine ⟨rfl, rfl, by decide, rfl, rfl, ?_⟩
  cases hs : s.isChecking <;> simp [checkBtnProps, hs]

end Kyubic
